import Mathlib

/-!
Verification of the seer life-expectancy application.

The definitions below are a shallow embedding of the core logic of the
repository (the file src/unnamed/part_000, whose estimator is also inlined in
src/src/App.tsx):

  - the country/sex baseline table COUNTRY_LIFE_EXPECTANCY and its lookup;
  - the expectancy estimator computeExpectedYears, split into the baseline
    selection selectBaseline and the lifestyle adjustment chain
    applyAdjustments exactly as in the source;
  - the BMI calculator calculateBMI;
  - the countdown decompositions updateCountdown (the ticking effect) and
    rawRemaining / clampedRemaining (the decomposition done at submit time);
  - the ordinal suffix helper getOrdinalSuffix;
  - a day-granularity model of the JavaScript Date mutations used to build the
    death date (makeDay mirrors the ECMAScript MakeDay normalization).

JavaScript numbers are modelled as rationals, milliseconds as integers.
Math.floor is Int.floor on rationals and Int.ediv on integers (the divisors in
the source are positive, where floor division and Euclidean division agree);
the JavaScript remainder operator, whose result takes the sign of the
dividend, is Int.tmod.  Math.random based jitter is an explicit parameter, and
the asynchronous machine-learning predictor is a parameter of type Option:
none stands for every failure mode (model unavailable, load error, thrown
exception, null prediction), which the source collapses into one catch branch.
parseFloat results are Option rationals, none standing for NaN.
-/

namespace Seer

/-- Constant DAYS_IN_MONTH from the source (average days per month). -/
def DAYS_IN_MONTH : ℚ := 30.44

/-- Constant DAYS_IN_YEAR from the source. -/
def DAYS_IN_YEAR : ℚ := 365.25

/-- Constant MS_IN_SECOND from the source. -/
def MS_IN_SECOND : ℤ := 1000

/-- Constant MS_IN_MINUTE from the source. -/
def MS_IN_MINUTE : ℤ := MS_IN_SECOND * 60

/-- Constant MS_IN_HOUR from the source. -/
def MS_IN_HOUR : ℤ := MS_IN_MINUTE * 60

/-- Constant MS_IN_DAY from the source. -/
def MS_IN_DAY : ℤ := MS_IN_HOUR * 24

/-- One entry of the country baseline table: male and female life expectancy
in years. -/
structure CountryData where
  male : ℚ
  female : ℚ
deriving DecidableEq

set_option maxHeartbeats 2000000 in
/-- The static COUNTRY_LIFE_EXPECTANCY table of the source, as an association
list from country name to the pair of expectancies. -/
def COUNTRY_LIFE_EXPECTANCY : List (String × CountryData) :=
  [("Japan", ⟨81.6, 87.7⟩),
   ("South Korea", ⟨80.3, 86.1⟩),
   ("Switzerland", ⟨81.8, 85.6⟩),
   ("Australia", ⟨81.2, 85.4⟩),
   ("Spain", ⟨80.9, 86.2⟩),
   ("Iceland", ⟨81.3, 84.9⟩),
   ("Italy", ⟨81.2, 85.6⟩),
   ("Israel", ⟨81.1, 84.9⟩),
   ("Sweden", ⟨81.3, 84.7⟩),
   ("France", ⟨79.8, 85.7⟩),
   ("Norway", ⟨81.0, 84.3⟩),
   ("Singapore", ⟨81.4, 85.7⟩),
   ("Netherlands", ⟨80.3, 83.8⟩),
   ("Canada", ⟨80.2, 84.1⟩),
   ("New Zealand", ⟨80.2, 83.5⟩),
   ("United Kingdom", ⟨79.8, 83.4⟩),
   ("Germany", ⟨78.9, 83.6⟩),
   ("United States", ⟨76.4, 81.2⟩),
   ("China", ⟨75.0, 79.9⟩),
   ("Monaco", ⟨85.2, 89.4⟩),
   ("San Marino", ⟨83.1, 86.2⟩),
   ("Hong Kong", ⟨82.3, 88.1⟩),
   ("Andorra", ⟨80.9, 84.8⟩),
   ("Luxembourg", ⟨80.1, 84.9⟩),
   ("Slovenia", ⟨79.0, 84.3⟩),
   ("Malta", ⟨80.9, 84.3⟩),
   ("Ireland", ⟨80.5, 84.1⟩),
   ("Cyprus", ⟨79.1, 83.9⟩),
   ("Austria", ⟨79.4, 84.0⟩),
   ("Finland", ⟨79.7, 84.5⟩),
   ("Greece", ⟨79.0, 84.2⟩),
   ("Belgium", ⟨79.8, 84.2⟩),
   ("Portugal", ⟨78.7, 84.6⟩),
   ("Denmark", ⟨79.0, 82.9⟩),
   ("Poland", ⟨74.1, 82.1⟩),
   ("Czech Republic", ⟨76.4, 82.2⟩),
   ("Estonia", ⟨74.4, 83.0⟩),
   ("Chile", ⟨77.9, 83.4⟩),
   ("Costa Rica", ⟨77.8, 82.6⟩),
   ("Slovakia", ⟨73.9, 81.0⟩),
   ("Uruguay", ⟨74.4, 81.2⟩),
   ("Croatia", ⟨75.7, 82.2⟩),
   ("Latvia", ⟨70.9, 80.5⟩),
   ("Lithuania", ⟨70.2, 81.2⟩),
   ("Hungary", ⟨73.0, 79.3⟩),
   ("Romania", ⟨72.3, 79.7⟩),
   ("Bulgaria", ⟨71.9, 78.8⟩),
   ("Panama", ⟨75.8, 81.6⟩),
   ("Argentina", ⟨73.2, 79.8⟩),
   ("Mexico", ⟨72.1, 77.8⟩),
   ("Brazil", ⟨72.8, 79.9⟩),
   ("Colombia", ⟨73.8, 80.0⟩),
   ("Peru", ⟨73.0, 78.3⟩),
   ("Ecuador", ⟨74.5, 80.0⟩),
   ("Venezuela", ⟨69.8, 77.7⟩),
   ("Turkey", ⟨76.3, 81.4⟩),
   ("Russian Federation", ⟨66.5, 77.6⟩),
   ("Belarus", ⟨69.9, 79.4⟩),
   ("Ukraine", ⟨67.7, 77.8⟩),
   ("Kazakhstan", ⟨67.4, 76.4⟩),
   ("Thailand", ⟨72.4, 79.7⟩),
   ("Malaysia", ⟨74.1, 78.6⟩),
   ("Iran, Islamic Republic of", ⟨75.4, 78.0⟩),
   ("Vietnam", ⟨71.7, 80.9⟩),
   ("Philippines", ⟨67.5, 75.5⟩),
   ("Indonesia", ⟨69.1, 73.3⟩),
   ("India", ⟨68.2, 70.3⟩),
   ("Bangladesh", ⟨70.6, 74.2⟩),
   ("Pakistan", ⟨66.1, 68.0⟩),
   ("Egypt", ⟨69.6, 74.3⟩),
   ("Morocco", ⟨74.0, 77.4⟩),
   ("Tunisia", ⟨74.2, 78.7⟩),
   ("South Africa", ⟨62.3, 67.5⟩),
   ("Kenya", ⟨62.2, 67.1⟩),
   ("Ethiopia", ⟨64.9, 68.9⟩),
   ("Nigeria", ⟨52.7, 54.7⟩),
   ("Ghana", ⟨62.4, 64.2⟩),
   ("Botswana", ⟨66.7, 71.8⟩),
   ("Mauritius", ⟨71.9, 78.3⟩),
   ("Rwanda", ⟨67.3, 71.8⟩),
   ("Algeria", ⟨75.6, 78.3⟩)]

/-- Indexing the table by country name, as lifeExpectancyData[formData.country]
does in the source: some entry when the country is a key, none otherwise. -/
def lookupCountry (country : String) : Option CountryData :=
  (COUNTRY_LIFE_EXPECTANCY.find? (fun p => p.1 == country)).map (fun p => p.2)

example : lookupCountry "Japan" = some ⟨81.6, 87.7⟩ := rfl
example : lookupCountry "Atlantis" = none := rfl

/-- The FormData record of the source.  The select widgets store plain
strings, so the enumerated fields are strings here as well; the two checkbox
fields are booleans.  Unset fields are the empty string, as in
INITIAL_FORM_DATA. -/
structure FormData where
  birthDay : String
  birthMonth : String
  birthYear : String
  sex : String
  smoker : Bool
  bmi : String
  outlook : String
  alcoholConsumption : String
  country : String
  includeFitnessDiet : Bool
  fitnessLevel : String
  dietRating : String
deriving DecidableEq

/-- The PredictionMode union type of the source. -/
inductive PredictionMode where
  | rule
  | who
  | ml
deriving DecidableEq

/-- The UsedModel union type of the source. -/
inductive UsedModel where
  | rule
  | who
  | ml
deriving DecidableEq

/-- The record returned by computeExpectedYears. -/
structure EstimateResult where
  years : ℚ
  usedModel : UsedModel
deriving DecidableEq

/-- Baseline selection of computeExpectedYears (the three if branches on
predictionMode at the top of the function).  The machine-learning predictor
is passed as mlPrediction; none stands for every failure mode of the try
block (model unavailable, load error, thrown exception, null prediction),
all of which land in the same catch branch in the source. -/
def selectBaseline (predictionMode : PredictionMode) (sex country : String)
    (lifeExpectancyData : String → Option CountryData)
    (mlPrediction : Option ℚ) : ℚ × UsedModel :=
  match predictionMode with
  | .rule =>
    match lifeExpectancyData country with
    | some countryData =>
      (if sex = "female" then countryData.female else countryData.male, .rule)
    | none =>
      (if sex = "female" then 78 + 4 else 78, .rule)
  | .who =>
    match lifeExpectancyData country with
    | some countryData =>
      (if sex = "female" then countryData.female else countryData.male, .who)
    | none => (100, .who)
  | .ml =>
    match mlPrediction with
    | some prediction => (prediction, .ml)
    | none =>
      match lifeExpectancyData country with
      | some countryData =>
        (if sex = "female" then countryData.female else countryData.male, .who)
      | none => (100, .who)

/-- The adjustment chain of computeExpectedYears after baseline selection:
age decay, BMI (calculated value first, else category midpoint), smoking,
alcohol, outlook, and the optional fitness and diet block, in the order of
the source.  Each switch without a default leaves the score unchanged on an
unmatched string, exactly as in the source. -/
def applyAdjustments (formData : FormData) (currentAge : ℚ)
    (calculatedBMI : Option ℚ) (base0 : ℚ) : ℚ :=
  let base1 := base0 - currentAge * 0.1
  let bmiFromCategory : Option ℚ :=
    if formData.bmi = "under18.5" then some 17
    else if formData.bmi = "18.5-24.9" then some 22
    else if formData.bmi = "25-29.9" then some 27
    else if formData.bmi = "30-34.9" then some 32
    else if formData.bmi = "35+" then some 37
    else none
  let bmiToUse : Option ℚ :=
    match calculatedBMI with
    | some b => some b
    | none => bmiFromCategory
  let base2 :=
    match bmiToUse with
    | none => base1
    | some b =>
      if b < 16 then base1 - 8
      else if b < 18.5 then base1 - 3
      else if b < 25 then base1 + 2
      else if b < 30 then base1 - 2
      else if b < 35 then base1 - 6
      else if b < 40 then base1 - 10
      else base1 - 15
  let base3 :=
    if formData.smoker then
      if formData.sex = "male" then base2 - 13.2 else base2 - 14.5
    else base2
  let base4 :=
    if formData.alcoholConsumption = "never" then base3 + 0.5
    else if formData.alcoholConsumption = "once-a-month" then base3 + 1
    else if formData.alcoholConsumption = "2-4-times-per-month" then base3 + 0.5
    else if formData.alcoholConsumption = "2-times-a-week" then base3 - 1
    else if formData.alcoholConsumption = "daily" then base3 - 5
    else if formData.alcoholConsumption = "constantly-blotto" then base3 - 15
    else base3
  let base5 :=
    if formData.outlook = "optimistic" then base4 + 2
    else if formData.outlook = "pessimistic" then base4 - 3
    else base4
  let base6 :=
    if formData.includeFitnessDiet then
      let afterFitness :=
        if formData.fitnessLevel = "ironman" then base5 + 8
        else if formData.fitnessLevel = "very-active" then base5 + 5
        else if formData.fitnessLevel = "moderately-active" then base5 + 3
        else if formData.fitnessLevel = "couch-potato" then base5 - 4
        else base5
      if formData.dietRating = "excellent" then afterFitness + 4
      else if formData.dietRating = "good" then afterFitness + 2
      else if formData.dietRating = "ok" then afterFitness + 0
      else if formData.dietRating = "terrible" then afterFitness - 3
      else afterFitness
    else base5
  base6

/-- The computeExpectedYears function of the source: baseline selection,
adjustment chain, stochastic jitter (the term (Math.random() - 0.5) * 4,
passed here as the explicit parameter jitter), and the final
currentAge + max(0, score - currentAge).  The function is total, so no
failure of the machine-learning path reaches the caller. -/
def computeExpectedYears (formData : FormData)
    (predictionMode : PredictionMode)
    (lifeExpectancyData : String → Option CountryData) (currentAge : ℚ)
    (calculatedBMI : Option ℚ) (mlPrediction : Option ℚ)
    (jitter : ℚ) : EstimateResult :=
  let bm := selectBaseline predictionMode formData.sex formData.country
    lifeExpectancyData mlPrediction
  let score := applyAdjustments formData currentAge calculatedBMI bm.1 + jitter
  { years := currentAge + max 0 (score - currentAge), usedModel := bm.2 }

/-- Rounding to one decimal place as Math.round(bmi * 10) / 10 does:
Math.round rounds half toward positive infinity, which is the floor of the
argument plus one half. -/
def round10 (x : ℚ) : ℚ := (⌊x * 10 + 1 / 2⌋ : ℚ) / 10

/-- The calculateBMI callback of the source.  weightValue and heightValue are
the parseFloat results of the two text fields, none standing for NaN.  The
guard of the source is (not weight or not height), which rejects exactly NaN
and zero; any other parsed value passes.  The previously stored BMI is the
last parameter and is returned unchanged when the guard fires. -/
def calculateBMI (weightUnit : String) (weightValue : Option ℚ)
    (heightUnit : String) (heightValue : Option ℚ)
    (calculatedBMI : Option ℚ) : Option ℚ :=
  match weightValue, heightValue with
  | some weight, some height =>
    if weight = 0 ∨ height = 0 then calculatedBMI
    else
      let weightInKg := if weightUnit = "pounds" then weight * 0.453592 else weight
      let heightInM :=
        if heightUnit = "inches" then height * 0.0254
        else if heightUnit = "cm" then height / 100
        else height
      some (round10 (weightInKg / (heightInM * heightInM)))
  | _, _ => calculatedBMI

/-- The CountdownTime record of the source. -/
structure CountdownTime where
  daysRemaining : ℤ
  hoursRemaining : ℤ
  minutesRemaining : ℤ
  secondsRemaining : ℤ
  approximateYears : ℤ
deriving DecidableEq

/-- One tick of the updateCountdown closure inside the countdown effect of
the source, as a function of the fixed target time and the fresh now, both
in milliseconds.  When the difference is not positive every component is set
to zero; otherwise the difference is decomposed.  In the positive branch the
dividends and divisors are positive, so Euclidean division and remainder
coincide with the Math.floor division and the remainder operator of the
source. -/
def updateCountdown (targetMs nowMs : ℤ) : CountdownTime :=
  let timeDiff := targetMs - nowMs
  if timeDiff ≤ 0 then
    { daysRemaining := 0, hoursRemaining := 0, minutesRemaining := 0,
      secondsRemaining := 0, approximateYears := 0 }
  else
    let daysRemaining := timeDiff.ediv MS_IN_DAY
    let hoursRemaining := (timeDiff.emod MS_IN_DAY).ediv MS_IN_HOUR
    let minutesRemaining := (timeDiff.emod MS_IN_HOUR).ediv MS_IN_MINUTE
    let secondsRemaining := (timeDiff.emod MS_IN_MINUTE).ediv MS_IN_SECOND
    let approximateYears := ⌊(daysRemaining : ℚ) / DAYS_IN_YEAR⌋
    { daysRemaining := daysRemaining, hoursRemaining := hoursRemaining,
      minutesRemaining := minutesRemaining, secondsRemaining := secondsRemaining,
      approximateYears := approximateYears }

/-- The remaining-time decomposition computed inline in handleSubmit, before
the per-component clamping.  The difference may be negative there, so
Math.floor of a quotient is Euclidean division by the positive constant and
the remainder operator, whose result takes the sign of the dividend, is
truncated remainder. -/
def rawRemaining (targetMs nowMs : ℤ) : CountdownTime :=
  let timeDiff := targetMs - nowMs
  let daysRemaining := timeDiff.ediv MS_IN_DAY
  { daysRemaining := daysRemaining,
    hoursRemaining := (timeDiff.tmod MS_IN_DAY).ediv MS_IN_HOUR,
    minutesRemaining := (timeDiff.tmod MS_IN_HOUR).ediv MS_IN_MINUTE,
    secondsRemaining := (timeDiff.tmod MS_IN_MINUTE).ediv MS_IN_SECOND,
    approximateYears := ⌊(daysRemaining : ℚ) / DAYS_IN_YEAR⌋ }

/-- The Math.max(0, _) clamping applied to each component of the handleSubmit
decomposition when it is stored into DeathResults and CountdownTime. -/
def clampedRemaining (targetMs nowMs : ℤ) : CountdownTime :=
  let raw := rawRemaining targetMs nowMs
  { daysRemaining := max 0 raw.daysRemaining,
    hoursRemaining := max 0 raw.hoursRemaining,
    minutesRemaining := max 0 raw.minutesRemaining,
    secondsRemaining := max 0 raw.secondsRemaining,
    approximateYears := max 0 raw.approximateYears }

/-- The getOrdinalSuffix helper of the source.  For the day numbers that
occur (positive integers) the remainder operator of the source agrees with
the Euclidean remainder used here. -/
def getOrdinalSuffix (day : ℤ) : String :=
  if 3 < day ∧ day < 21 then "th"
  else if day.emod 10 = 1 then "st"
  else if day.emod 10 = 2 then "nd"
  else if day.emod 10 = 3 then "rd"
  else "th"

/-- Days since the epoch of the civil date y-m-d (month 1 to 12, day may be
any integer), by the standard Gregorian conversion used to model the
ECMAScript day computation. -/
def daysFromCivil (y m d : ℤ) : ℤ :=
  let yAdj := if m ≤ 2 then y - 1 else y
  let era := yAdj.ediv 400
  let yoe := yAdj - era * 400
  let mp := if 2 < m then m - 3 else m + 9
  let doy := (153 * mp + 2).ediv 5 + d - 1
  let doe := yoe * 365 + yoe.ediv 4 - yoe.ediv 100 + doy
  era * 146097 + doe - 719468

/-- Civil date (year, month 1 to 12, day of month) of a count of days since
the epoch; inverse of daysFromCivil on in-range dates. -/
def civilFromDays (z0 : ℤ) : ℤ × ℤ × ℤ :=
  let z := z0 + 719468
  let era := z.ediv 146097
  let doe := z - era * 146097
  let yoe := (doe - doe.ediv 1460 + doe.ediv 36524 - doe.ediv 146096).ediv 365
  let y := yoe + era * 400
  let doy := doe - (365 * yoe + yoe.ediv 4 - yoe.ediv 100)
  let mp := (5 * doy + 2).ediv 153
  let d := doy - (153 * mp + 2).ediv 5 + 1
  let m := if mp < 10 then mp + 3 else mp - 9
  (if m ≤ 2 then y + 1 else y, m, d)

/-- A JavaScript Date at local midnight granularity: the count of whole days
since the epoch.  The dates built by handleSubmit (birth date and death
date) all have zero time of day, so this granularity is exact for them. -/
structure Date where
  days : ℤ
deriving DecidableEq

/-- The ECMAScript MakeDay normalization: year, 0-indexed month (any
integer) and day of month (any integer) to days since the epoch.  The month
is folded into the year by floor division, and the day offsets the first of
the resulting month. -/
def makeDay (year month date : ℤ) : Date :=
  ⟨daysFromCivil (year + month.ediv 12) (month.emod 12 + 1) 1 + (date - 1)⟩

/-- Accessor getFullYear. -/
def Date.getFullYear (t : Date) : ℤ := (civilFromDays t.days).1

/-- Accessor getMonth (0-indexed, as in JavaScript). -/
def Date.getMonth (t : Date) : ℤ := (civilFromDays t.days).2.1 - 1

/-- Accessor getDate (day of month). -/
def Date.getDate (t : Date) : ℤ := (civilFromDays t.days).2.2

/-- Accessor getTime, in milliseconds since the epoch. -/
def Date.getTime (t : Date) : ℤ := t.days * MS_IN_DAY

/-- Mutator setFullYear: keeps the current month and day number and
renormalizes (so 29 February rolls into March on a non-leap year). -/
def Date.setFullYear (t : Date) (year : ℤ) : Date :=
  makeDay year t.getMonth t.getDate

/-- Mutator setMonth: keeps the current year and day number; an out-of-range
month rolls into neighbouring years. -/
def Date.setMonth (t : Date) (month : ℤ) : Date :=
  makeDay t.getFullYear month t.getDate

/-- Mutator setDate: keeps the current year and month; an out-of-range day
number rolls into neighbouring months. -/
def Date.setDate (t : Date) (date : ℤ) : Date :=
  makeDay t.getFullYear t.getMonth date

/-- The constructor new Date(year, month, day) used for the birth date. -/
def mkDate (year month day : ℤ) : Date := makeDay year month day

/-- The death date computation of handleSubmit: split the expected lifespan
into whole years, whole remaining months and remaining days (with the 30.44
average month), then apply the three offsets with the JavaScript Date
mutators, each relative to the birth date fields but applied in sequence to
the mutated date. -/
def computeDeathDate (birthDate : Date) (totalLifeExpectancy : ℚ) : Date :=
  let totalYears : ℤ := ⌊totalLifeExpectancy⌋
  let remainingMonths : ℤ := ⌊(totalLifeExpectancy - (totalYears : ℚ)) * 12⌋
  let remainingDays : ℤ :=
    ⌊((totalLifeExpectancy - (totalYears : ℚ)) * 12 - (remainingMonths : ℚ)) * DAYS_IN_MONTH⌋
  let d1 := birthDate.setFullYear (birthDate.getFullYear + totalYears)
  let d2 := d1.setMonth (birthDate.getMonth + remainingMonths)
  d2.setDate (birthDate.getDate + remainingDays)

example : mkDate 1970 0 1 = ⟨0⟩ := by decide
example : mkDate 2000 0 1 = ⟨10957⟩ := by decide
example : civilFromDays 10957 = (2000, 1, 1) := by decide
example : mkDate 2000 1 29 = ⟨11016⟩ := by decide
example : (⟨11016⟩ : Date).setFullYear 2001 = ⟨11382⟩ := by decide
example : civilFromDays 11382 = (2001, 3, 1) := by decide

/-- A concrete profile used by the witness theorems: a male non-smoker from
Japan with neutral outlook, no alcohol and no fitness block. -/
def sampleForm : FormData :=
  { birthDay := "1", birthMonth := "1", birthYear := "2000", sex := "male",
    smoker := false, bmi := "", outlook := "neutral",
    alcoholConsumption := "never", country := "Japan",
    includeFitnessDiet := false, fitnessLevel := "", dietRating := "" }

/-- The years field of the estimator, written out: current age plus the
clamped distance from the jittered score to the current age. -/
theorem computeExpectedYears_years (formData : FormData)
    (predictionMode : PredictionMode)
    (lifeExpectancyData : String → Option CountryData) (currentAge : ℚ)
    (calculatedBMI mlPrediction : Option ℚ) (jitter : ℚ) :
    (computeExpectedYears formData predictionMode lifeExpectancyData currentAge
        calculatedBMI mlPrediction jitter).years
      = currentAge + max 0 (applyAdjustments formData currentAge calculatedBMI
          (selectBaseline predictionMode formData.sex formData.country
            lifeExpectancyData mlPrediction).1 + jitter - currentAge) := rfl

/-- The usedModel field of the estimator is the one picked during baseline
selection. -/
theorem computeExpectedYears_usedModel (formData : FormData)
    (predictionMode : PredictionMode)
    (lifeExpectancyData : String → Option CountryData) (currentAge : ℚ)
    (calculatedBMI mlPrediction : Option ℚ) (jitter : ℚ) :
    (computeExpectedYears formData predictionMode lifeExpectancyData currentAge
        calculatedBMI mlPrediction jitter).usedModel
      = (selectBaseline predictionMode formData.sex formData.country
          lifeExpectancyData mlPrediction).2 := rfl

/-- C1: for every profile, nonnegative current age, strategy mode and jitter
value, the expected total lifespan returned by computeExpectedYears is at
least the current age, because the result is
currentAge + max(0, adjustedBaseline - currentAge). -/
theorem estimator_result_ge_current_age (formData : FormData)
    (predictionMode : PredictionMode)
    (lifeExpectancyData : String → Option CountryData) (currentAge : ℚ)
    (calculatedBMI mlPrediction : Option ℚ) (jitter : ℚ)
    (h : 0 ≤ currentAge) :
    currentAge ≤ (computeExpectedYears formData predictionMode
      lifeExpectancyData currentAge calculatedBMI mlPrediction jitter).years := by
  rw [computeExpectedYears_years]
  exact le_add_of_nonneg_right (le_max_left 0 _)

/-- Witness for C1 at a concrete input. -/
theorem estimator_result_ge_current_age_witness :
    (0 : ℚ) ≤ 24 ∧
    (24 : ℚ) ≤ (computeExpectedYears sampleForm .who lookupCountry 24
      none none 1).years :=
  ⟨by norm_num,
   estimator_result_ge_current_age sampleForm .who lookupCountry 24 none none 1
     (by norm_num)⟩

/-- C2: in ml mode, when the external predictor fails in any way (modelled
by a none prediction, where the source lands in its catch branch for model
unavailable, load error, thrown exception and null prediction alike), the
estimator returns exactly the result the who strategy would have produced
for the same profile, and reports the used model as who; being a total
function, it propagates no error to the caller. -/
theorem ml_failure_falls_back_to_who (formData : FormData)
    (lifeExpectancyData : String → Option CountryData) (currentAge : ℚ)
    (calculatedBMI : Option ℚ) (jitter : ℚ) (otherPrediction : Option ℚ) :
    computeExpectedYears formData .ml lifeExpectancyData currentAge
        calculatedBMI none jitter
      = computeExpectedYears formData .who lifeExpectancyData currentAge
        calculatedBMI otherPrediction jitter ∧
    (computeExpectedYears formData .ml lifeExpectancyData currentAge
        calculatedBMI none jitter).usedModel = .who := by
  have hsel : selectBaseline .ml formData.sex formData.country
      lifeExpectancyData none
      = selectBaseline .who formData.sex formData.country
        lifeExpectancyData otherPrediction := by
    unfold selectBaseline
    cases lifeExpectancyData formData.country <;> rfl
  have husd : (selectBaseline .who formData.sex formData.country
      lifeExpectancyData otherPrediction).2 = .who := by
    unfold selectBaseline
    cases lifeExpectancyData formData.country <;> rfl
  constructor
  · unfold computeExpectedYears
    rw [hsel]
  · rw [computeExpectedYears_usedModel, hsel, husd]

/-- C3: before adjustments, in rule mode the baseline is the country entry
for the sex of the profile when the country is a key of the table, and
otherwise 78 plus 4 exactly when the sex is female; in who mode the baseline
is the country entry when the country is known and otherwise exactly 100 for
every sex. -/
theorem baseline_selection (sex country : String)
    (lifeExpectancyData : String → Option CountryData) (mlPrediction : Option ℚ) :
    (∀ d, lifeExpectancyData country = some d →
      (selectBaseline .rule sex country lifeExpectancyData mlPrediction).1
          = (if sex = "female" then d.female else d.male) ∧
      (selectBaseline .who sex country lifeExpectancyData mlPrediction).1
          = (if sex = "female" then d.female else d.male)) ∧
    (lifeExpectancyData country = none →
      (selectBaseline .rule sex country lifeExpectancyData mlPrediction).1
          = (if sex = "female" then 78 + 4 else 78) ∧
      (selectBaseline .who sex country lifeExpectancyData mlPrediction).1 = 100) := by
  constructor
  · intro d hd
    unfold selectBaseline
    rw [hd]
    exact ⟨rfl, rfl⟩
  · intro hd
    unfold selectBaseline
    rw [hd]
    exact ⟨rfl, rfl⟩

/-- Witness for C3: an unknown country with a female profile gives 82 in
rule mode and 100 in who mode. -/
theorem baseline_selection_witness :
    lookupCountry "Atlantis" = none ∧
    (selectBaseline .rule "female" "Atlantis" lookupCountry none).1 = 82 ∧
    (selectBaseline .who "female" "Atlantis" lookupCountry none).1 = 100 := by
  have hn : lookupCountry "Atlantis" = none := rfl
  have h := (baseline_selection "female" "Atlantis" lookupCountry none).2 hn
  refine ⟨hn, ?_, h.2⟩
  rw [h.1]
  norm_num

/-- C10: for every country in the baseline table, a profile whose sex is any
string other than female (in particular other) receives the male expectancy
of the country as its baseline, in rule mode as well as in who mode: the
source resolves the sex by a single female test with no third branch. -/
theorem non_female_gets_male_baseline (sex country : String)
    (lifeExpectancyData : String → Option CountryData) (mlPrediction : Option ℚ)
    (d : CountryData) (hd : lifeExpectancyData country = some d)
    (hs : sex ≠ "female") :
    (selectBaseline .rule sex country lifeExpectancyData mlPrediction).1 = d.male ∧
    (selectBaseline .who sex country lifeExpectancyData mlPrediction).1 = d.male := by
  unfold selectBaseline
  rw [hd]
  simp [hs]

/-- Witness for C10: sex other with Japan gets the male entry 81.6 in both
modes. -/
theorem non_female_gets_male_baseline_witness :
    lookupCountry "Japan" = some ⟨81.6, 87.7⟩ ∧ "other" ≠ "female" ∧
    (selectBaseline .rule "other" "Japan" lookupCountry none).1 = 81.6 ∧
    (selectBaseline .who "other" "Japan" lookupCountry none).1 = 81.6 := by
  have hj : lookupCountry "Japan" = some ⟨81.6, 87.7⟩ := rfl
  have hs : "other" ≠ "female" := by decide
  exact ⟨hj, hs, non_female_gets_male_baseline "other" "Japan" lookupCountry
    none ⟨81.6, 87.7⟩ hj hs⟩

/-- C5: for strictly positive weight and height with recognised units, the
BMI calculator stores the one-decimal round-half-up of kilograms over metres
squared, with pounds times 0.453592, inches times 0.0254 and centimetres
divided by 100. -/
theorem bmi_formula (w h : ℚ) (prev : Option ℚ) (hw : 0 < w) (hh : 0 < h) :
    calculateBMI "kg" (some w) "cm" (some h) prev
      = some (round10 (w / ((h / 100) * (h / 100)))) ∧
    calculateBMI "pounds" (some w) "cm" (some h) prev
      = some (round10 ((w * 0.453592) / ((h / 100) * (h / 100)))) ∧
    calculateBMI "kg" (some w) "inches" (some h) prev
      = some (round10 (w / ((h * 0.0254) * (h * 0.0254)))) ∧
    calculateBMI "pounds" (some w) "inches" (some h) prev
      = some (round10 ((w * 0.453592) / ((h * 0.0254) * (h * 0.0254)))) := by
  have hg : ¬(w = 0 ∨ h = 0) := by
    rintro (rfl | rfl)
    · exact absurd hw (lt_irrefl 0)
    · exact absurd hh (lt_irrefl 0)
  refine ⟨?_, ?_, ?_, ?_⟩ <;>
    simp [calculateBMI, hg]

/-- Witness for C5: seventy kilograms and one hundred seventy-five
centimetres give a BMI of 22.9. -/
theorem bmi_formula_witness :
    (0 : ℚ) < 70 ∧ (0 : ℚ) < 175 ∧
    calculateBMI "kg" (some 70) "cm" (some 175) none = some 22.9 := by
  refine ⟨by norm_num, by norm_num, ?_⟩
  rw [(bmi_formula 70 175 none (by norm_num) (by norm_num)).1]
  have hfl : ⌊(70 : ℚ) / ((175 / 100) * (175 / 100)) * 10 + 1 / 2⌋ = 229 := by
    rw [Int.floor_eq_iff] <;> norm_num
  unfold round10
  rw [hfl]
  norm_num

/-- Counterexample to C6 as stated: a parseable strictly negative weight is
not rejected by the guard of the source, so the call is not a no-op: it
overwrites the stored BMI (here none) with a negative value. -/
theorem bmi_negative_input_not_noop :
    calculateBMI "kg" (some (-70)) "cm" (some 175) none = some (-22.9) ∧
    some (-22.9 : ℚ) ≠ (none : Option ℚ) := by
  constructor
  · have hg : ¬((-70 : ℚ) = 0 ∨ (175 : ℚ) = 0) := by norm_num
    have hku : ("kg" : String) ≠ "pounds" := by decide
    have hcu : ("cm" : String) ≠ "inches" := by decide
    have hfl : ⌊(-70 : ℚ) / ((175 / 100) * (175 / 100)) * 10 + 1 / 2⌋ = -229 := by
      rw [Int.floor_eq_iff] <;> norm_num
    simp only [calculateBMI, if_neg hg, if_neg hku, if_neg hcu,
      eq_self_iff_true, if_true]
    unfold round10
    rw [hfl]
    norm_num
  · simp

/-- C6 amended: when the weight or the height fails to parse (NaN, modelled
as none) or parses to exactly zero, the BMI calculator is a no-op that
leaves the previously stored value unchanged; the guard of the source tests
falsiness, so strictly negative parseable values are not rejected. -/
theorem bmi_noop_on_nan_or_zero (weightUnit heightUnit : String)
    (w h prev : Option ℚ)
    (hwh : w = none ∨ h = none ∨ w = some 0 ∨ h = some 0) :
    calculateBMI weightUnit w heightUnit h prev = prev := by
  rcases hwh with rfl | rfl | rfl | rfl
  · cases h <;> rfl
  · cases w <;> rfl
  · cases h <;> simp [calculateBMI]
  · cases w <;> simp [calculateBMI]

/-- Witness for C6 amended: an unparseable weight leaves the stored BMI 5
in place. -/
theorem bmi_noop_on_nan_or_zero_witness :
    calculateBMI "kg" none "cm" (some 175) (some 5) = some 5 :=
  bmi_noop_on_nan_or_zero "kg" "cm" none (some 175) (some 5) (Or.inl rfl)

/-- C7: with everything fixed but the jitter, two evaluations of the
estimator in a non-ml mode with jitters drawn from the interval from
minus two to two produce expected lifespans at most four years apart. -/
theorem jitter_bounded_difference (formData : FormData)
    (predictionMode : PredictionMode)
    (lifeExpectancyData : String → Option CountryData) (currentAge : ℚ)
    (calculatedBMI mlPrediction : Option ℚ) (j1 j2 : ℚ)
    (hmode : predictionMode ≠ .ml)
    (h1 : -2 ≤ j1) (h2 : j1 ≤ 2) (h3 : -2 ≤ j2) (h4 : j2 ≤ 2) :
    |(computeExpectedYears formData predictionMode lifeExpectancyData
        currentAge calculatedBMI mlPrediction j1).years
      - (computeExpectedYears formData predictionMode lifeExpectancyData
        currentAge calculatedBMI mlPrediction j2).years| ≤ 4 := by
  rw [computeExpectedYears_years, computeExpectedYears_years]
  set S := applyAdjustments formData currentAge calculatedBMI
    (selectBaseline predictionMode formData.sex formData.country
      lifeExpectancyData mlPrediction).1 with hS
  calc |currentAge + max 0 (S + j1 - currentAge)
          - (currentAge + max 0 (S + j2 - currentAge))|
      = |max (S + j1 - currentAge) 0 - max (S + j2 - currentAge) 0| := by
        rw [add_sub_add_left_eq_sub, max_comm 0, max_comm 0]
    _ ≤ |(S + j1 - currentAge) - (S + j2 - currentAge)| :=
        abs_max_sub_max_le_abs _ _ _
    _ = |j1 - j2| := by congr 1; ring
    _ ≤ 4 := abs_sub_le_iff.mpr ⟨by linarith, by linarith⟩

/-- Witness for C7 at a concrete input with the two extreme jitters. -/
theorem jitter_bounded_difference_witness :
    PredictionMode.who ≠ PredictionMode.ml ∧ (-2 : ℚ) ≤ 2 ∧
    |(computeExpectedYears sampleForm .who lookupCountry 24 none none 2).years
      - (computeExpectedYears sampleForm .who lookupCountry 24 none none (-2)).years| ≤ 4 :=
  ⟨by decide, by norm_num,
   jitter_bounded_difference sampleForm .who lookupCountry 24 none none 2 (-2)
     (by decide) (by norm_num) (by norm_num) (by norm_num) (by norm_num)⟩

/-- C9: for day numbers from 1 to 31 the ordinal suffix is th strictly
between 3 and 21 and otherwise follows the last digit; in particular the
listed values hold, including 11, 12 and 13 mapping to th and 21, 22, 23
and 31 following their last digit. -/
theorem ordinal_suffix_cases (day : ℤ) (hlo : 1 ≤ day) (hhi : day ≤ 31) :
    (getOrdinalSuffix day =
      if 3 < day ∧ day < 21 then "th"
      else if day.emod 10 = 1 then "st"
      else if day.emod 10 = 2 then "nd"
      else if day.emod 10 = 3 then "rd"
      else "th") ∧
    (4 ≤ day → day ≤ 20 → getOrdinalSuffix day = "th") ∧
    getOrdinalSuffix 1 = "st" ∧ getOrdinalSuffix 2 = "nd" ∧
    getOrdinalSuffix 3 = "rd" ∧ getOrdinalSuffix 11 = "th" ∧
    getOrdinalSuffix 12 = "th" ∧ getOrdinalSuffix 13 = "th" ∧
    getOrdinalSuffix 21 = "st" ∧ getOrdinalSuffix 22 = "nd" ∧
    getOrdinalSuffix 23 = "rd" ∧ getOrdinalSuffix 31 = "st" := by
  refine ⟨rfl, ?_, rfl, rfl, rfl, rfl, rfl, rfl, rfl, rfl, rfl, rfl⟩
  intro h4 h20
  interval_cases day <;> rfl

/-- Witness for C9 at day 21. -/
theorem ordinal_suffix_cases_witness :
    (1 : ℤ) ≤ 21 ∧ (21 : ℤ) ≤ 31 ∧ getOrdinalSuffix 21 = "st" :=
  ⟨by norm_num, by norm_num,
   (ordinal_suffix_cases 21 (by norm_num)
     (by norm_num)).2.2.2.2.2.2.2.2.1⟩

/-- C4: whenever a countdown tick runs with a now at or past the fixed
target (difference not positive), every remaining-duration component is
zero, and it is still zero on any later tick; moreover no component of any
tick is ever negative. -/
theorem countdown_clamp (target now later : ℤ)
    (h : target ≤ now) (hlater : now ≤ later) :
    updateCountdown target now = ⟨0, 0, 0, 0, 0⟩ ∧
    updateCountdown target later = ⟨0, 0, 0, 0, 0⟩ ∧
    ∀ t n : ℤ,
      0 ≤ (updateCountdown t n).daysRemaining ∧
      0 ≤ (updateCountdown t n).hoursRemaining ∧
      0 ≤ (updateCountdown t n).minutesRemaining ∧
      0 ≤ (updateCountdown t n).secondsRemaining ∧
      0 ≤ (updateCountdown t n).approximateYears := by
  have hzero : ∀ a b : ℤ, a ≤ b → updateCountdown a b = ⟨0, 0, 0, 0, 0⟩ := by
    intro a b hab
    unfold updateCountdown
    rw [if_pos (sub_nonpos.mpr hab)]
  refine ⟨hzero _ _ h, hzero _ _ (le_trans h hlater), ?_⟩
  intro t n
  by_cases hc : t - n ≤ 0
  · rw [hzero t n (by linarith)]
    exact ⟨le_refl 0, le_refl 0, le_refl 0, le_refl 0, le_refl 0⟩
  · push_neg at hc
    have hday : (0 : ℤ) < MS_IN_DAY := by decide
    have hhour : (0 : ℤ) < MS_IN_HOUR := by decide
    have hmin : (0 : ℤ) < MS_IN_MINUTE := by decide
    have hsec : (0 : ℤ) < MS_IN_SECOND := by decide
    have hbranch : updateCountdown t n =
        { daysRemaining := (t - n).ediv MS_IN_DAY,
          hoursRemaining := ((t - n).emod MS_IN_DAY).ediv MS_IN_HOUR,
          minutesRemaining := ((t - n).emod MS_IN_HOUR).ediv MS_IN_MINUTE,
          secondsRemaining := ((t - n).emod MS_IN_MINUTE).ediv MS_IN_SECOND,
          approximateYears := ⌊(((t - n).ediv MS_IN_DAY : ℤ) : ℚ) / DAYS_IN_YEAR⌋ } := by
      unfold updateCountdown
      rw [if_neg (by linarith)]
    rw [hbranch]
    have hdays : (0 : ℤ) ≤ (t - n).ediv MS_IN_DAY :=
      Int.ediv_nonneg (by linarith) hday.le
    refine ⟨hdays, ?_, ?_, ?_, ?_⟩
    · exact Int.ediv_nonneg (Int.emod_nonneg _ hday.ne') hhour.le
    · exact Int.ediv_nonneg (Int.emod_nonneg _ hhour.ne') hmin.le
    · exact Int.ediv_nonneg (Int.emod_nonneg _ hmin.ne') hsec.le
    · refine Int.floor_nonneg.mpr (div_nonneg ?_ ?_)
      · exact_mod_cast hdays
      · unfold DAYS_IN_YEAR
        norm_num

/-- Witness for C4 at concrete times past the target. -/
theorem countdown_clamp_witness :
    (5000 : ℤ) ≤ 6000 ∧ (6000 : ℤ) ≤ 7000 ∧
    updateCountdown 5000 6000 = ⟨0, 0, 0, 0, 0⟩ ∧
    updateCountdown 5000 7000 = ⟨0, 0, 0, 0, 0⟩ := by
  have h := countdown_clamp 5000 6000 7000 (by norm_num) (by norm_num)
  exact ⟨by norm_num, by norm_num, h.1, h.2.1⟩

/-- C8: for every birth date and expected lifespan, feeding the death date
computed by the calendar projection of handleSubmit back in as now makes
every component of the remaining-duration decomposition zero, both in the
clamped decomposition stored at submit time and in the countdown tick. -/
theorem death_date_round_trip (birthYear birthMonth birthDay : ℤ)
    (expectedYears : ℚ) :
    clampedRemaining
        ((computeDeathDate (mkDate birthYear (birthMonth - 1) birthDay)
          expectedYears).getTime)
        ((computeDeathDate (mkDate birthYear (birthMonth - 1) birthDay)
          expectedYears).getTime) = ⟨0, 0, 0, 0, 0⟩ ∧
    updateCountdown
        ((computeDeathDate (mkDate birthYear (birthMonth - 1) birthDay)
          expectedYears).getTime)
        ((computeDeathDate (mkDate birthYear (birthMonth - 1) birthDay)
          expectedYears).getTime) = ⟨0, 0, 0, 0, 0⟩ := by
  generalize (computeDeathDate (mkDate birthYear (birthMonth - 1) birthDay)
    expectedYears).getTime = t
  constructor
  · unfold clampedRemaining rawRemaining
    simp
    refine ⟨by decide, by decide, by decide, by decide, ?_⟩
    have h0 : Int.ediv 0 MS_IN_DAY = 0 := by decide
    rw [h0]
    norm_num
  · unfold updateCountdown
    rw [if_pos (by simp)]

end Seer
